import Mathlib

/-
Verification of the VMManager command-line utility (src/vm-manager.js).

The program is modelled shallowly: subprocess execution is an environment
mapping each issued command line to either an execution error (a rejected
promise) or captured stdout/stderr; console output and the sequence of
issued commands are recorded explicitly.  All definitions follow the
JavaScript source line by line.
-/

namespace VMM

/-- A virtual-machine record from config.json: symbolic id, display name,
and filesystem path of the VM descriptor file. -/
structure VMRecord where
  id : String
  name : String
  path : String
deriving DecidableEq

/-- The parsed JSON configuration document, before shape validation.
`vmrunPath = none` models an absent or null field and `some ""` an empty
string; both are falsy in the JavaScript check `!configData.vmrunPath`.
`virtualMachines = none` models a value that is not an array. -/
structure RawConfig where
  vmrunPath : Option String
  virtualMachines : Option (List VMRecord)
deriving DecidableEq

/-- Outcome of reading and JSON-parsing config.json: either an exception
message (file-read or parse failure) or the parsed document. -/
inductive ConfigSrc where
  | readError (msg : String)
  | parsed (doc : RawConfig)
deriving DecidableEq

/-- Captured output of a subprocess that completed. -/
structure ExecOut where
  stdout : String
  stderr : String
deriving DecidableEq

/-- Result of executeCommand: the promise either rejects with an execution
error message or resolves with the captured stdout and stderr. -/
abbrev ExecResult := Except String ExecOut

/-- The process-execution environment: what each issued command line
returns. -/
abbrev Env := String → ExecResult

/-- Console and subprocess side effects of a run: stdout lines, stderr
lines, and the subprocess command lines issued, each in order. -/
structure Effects where
  stdoutLines : List String
  stderrLines : List String
  commands : List String
deriving DecidableEq

/-- JavaScript `s.toLowerCase()`: lower-case every character. -/
def jsToLower (s : String) : String := ⟨s.data.map Char.toLower⟩

/-- Split a character list at every occurrence of the character `c`
(JavaScript `split` with a one-character separator). -/
def splitOnChar (c : Char) : List Char → List (List Char)
  | [] => [[]]
  | a :: rest =>
    match splitOnChar c rest with
    | [] => [[]]
    | h :: t => if a == c then [] :: h :: t else (a :: h) :: t

/-- JavaScript `s.split("\n")`. -/
def jsSplitNl (s : String) : List String :=
  (splitOnChar (Char.ofNat 0x0a) s.data).map fun l => ⟨l⟩

/-- Whether `sub` occurs as a contiguous run inside the second list. -/
def containsSub (sub : List Char) : List Char → Bool
  | [] => sub.isEmpty
  | c :: rest => sub.isPrefixOf (c :: rest) || containsSub sub rest

/-- JavaScript `s.trim()`: strip leading and trailing whitespace. -/
def jsTrim (s : String) : String :=
  ⟨((s.data.dropWhile Char.isWhitespace).reverse.dropWhile Char.isWhitespace).reverse⟩

/-- JavaScript truthiness test `!x` for an optional string field: true for
an absent field and for the empty string. -/
def jsFalsyStr : Option String → Bool
  | none => true
  | some s => s == ""

/-- JavaScript `s.includes(sub)` for a nonempty search string: `sub`
occurs contiguously in `s`. -/
def jsIncludes (s sub : String) : Bool :=
  containsSub sub.data s.data

/-- The line-processing pipeline applied to `list` stdout: split on
newlines, drop the header line, trim each line, drop empty lines. -/
def jsLines (out : String) : List String :=
  (((jsSplitNl out).drop 1).map jsTrim).filter (fun l => l != "")

/-- The warning printed for a running path absent from config.json. -/
def warningLine (p : String) : String :=
  "- Warning: Running VM not found in config.json: " ++ p

/-- The matching loop of listRunningVms: each running path is looked up in
the configured list by exact equality on `path`; matches are collected in
order, misses produce a warning line. -/
def matchLines (vmList : List VMRecord) : List String → List VMRecord × List String
  | [] => ([], [])
  | p :: rest =>
    let r := matchLines vmList rest
    match vmList.find? (fun vm => vm.path == p) with
    | some vmConfig => (vmConfig :: r.1, r.2)
    | none => (r.1, warningLine p :: r.2)

/-- Model of listRunningVms: issues `<vmrunPath> list` and interprets the
result.  A rejected promise prints a failure message to stderr and yields
the empty list.  Non-empty stderr with empty trimmed stdout yields the
empty list silently.  Otherwise each processed stdout line is matched
against the configured list. -/
def listRunningVms (vmList : List VMRecord) (vmrunPath : String) (env : Env) :
    List VMRecord × Effects :=
  let listCommand := vmrunPath ++ " list"
  match env listCommand with
  | .error e => ([], ⟨[], ["Failed to list running VMs: " ++ e], [listCommand]⟩)
  | .ok out =>
    if out.stderr != "" && jsTrim out.stdout == "" then
      ([], ⟨[], [], [listCommand]⟩)
    else
      let m := matchLines vmList (jsLines out.stdout)
      (m.1, ⟨m.2, [], [listCommand]⟩)

/-- Command line issued to suspend a VM. -/
def suspendCmd (vmrunPath vmPath : String) : String :=
  vmrunPath ++ " suspend \"" ++ vmPath ++ "\""

/-- Command line issued to resume (start) a VM. -/
def resumeCmd (vmrunPath vmPath : String) : String :=
  vmrunPath ++ " start \"" ++ vmPath ++ "\" nogui"

/-- The command built inside the per-VM loop. -/
def commandFor (action vmrunPath vmPath : String) : String :=
  if action == "suspend" then suspendCmd vmrunPath vmPath
  else resumeCmd vmrunPath vmPath

/-- The per-VM success message. -/
def successMsgFor (action vmName : String) : String :=
  if action == "suspend" then "\"" ++ vmName ++ "\" suspended successfully."
  else "\"" ++ vmName ++ "\" resumed successfully."

/-- The per-VM failure message stem. -/
def errorMsgFor (action vmName : String) : String :=
  if action == "suspend" then "Failed to suspend \"" ++ vmName ++ "\"."
  else "Failed to resume \"" ++ vmName ++ "\"."

/-- Per-VM outcome of a suspend or resume action, as reported. -/
inductive VmOutcome where
  | success (info : Option String)
  | failure (msg : String)
deriving DecidableEq

/-- Interpretation of one suspend/resume subprocess result: a rejected
promise is a failure; stderr containing "Error:" is a failure with the
error text; other non-empty stderr is a success with the text attached;
empty stderr is a plain success. -/
def interpretVmResult (action vmName : String) (res : ExecResult) : VmOutcome :=
  match res with
  | .error e => .failure (errorMsgFor action vmName ++ " Details: " ++ e)
  | .ok out =>
    if out.stderr != "" then
      if jsIncludes out.stderr "Error:" then
        .failure (errorMsgFor action vmName ++ " Error: " ++ jsTrim out.stderr)
      else
        .success (some (jsTrim out.stderr))
    else
      .success none

/-- The progress line printed before each per-VM command. -/
def progressLine (action : String) (vm : VMRecord) : String :=
  "- " ++ (if action == "suspend" then "Suspending" else "Resuming") ++
    " \"" ++ vm.name ++ "\" (ID: " ++ vm.id ++ ")..."

/-- Console lines (stdout, stderr) printed for one per-VM outcome. -/
def outcomeLines (action : String) (vm : VMRecord) : VmOutcome → List String × List String
  | .success none => (["  " ++ successMsgFor action vm.name], [])
  | .success (some info) =>
      (["  " ++ successMsgFor action vm.name ++ " (vmrun output: " ++ info ++ ")"], [])
  | .failure msg => ([], ["  " ++ msg])

/-- Header printed before the per-VM loop. -/
def startHeaderLine (action : String) : String :=
  "\nStarting " ++ action ++ " process for the following virtual machine(s):"

/-- Footer printed after the per-VM loop. -/
def startFooterLine (action : String) : String :=
  "\nAll specified virtual machines " ++ action ++ " process completed."

/-- The per-VM loop of processVmsAction: issues one command per target VM
in order, interprets each result, and records the console lines. -/
def processLoop (action vmrunPath : String) (env : Env) :
    List VMRecord → List (VMRecord × VmOutcome) × Effects
  | [] => ([], ⟨[], [], []⟩)
  | vm :: rest =>
    let cmd := commandFor action vmrunPath vm.path
    let o := interpretVmResult action vm.name (env cmd)
    let ls := outcomeLines action vm o
    let r := processLoop action vmrunPath env rest
    ((vm, o) :: r.1,
      ⟨progressLine action vm :: ls.1 ++ r.2.stdoutLines,
        ls.2 ++ r.2.stderrLines,
        cmd :: r.2.commands⟩)

/-- Model of processVmsAction: an empty target list prints a notice and
issues nothing; otherwise the loop runs over every target VM, wrapped in
header and footer lines. -/
def processVmsAction (action : String) (targetVms : List VMRecord)
    (vmrunPath : String) (env : Env) : List (VMRecord × VmOutcome) × Effects :=
  if targetVms.length == 0 then
    ([], ⟨["No virtual machines found to " ++ action ++ "."], [], []⟩)
  else
    let r := processLoop action vmrunPath env targetVms
    (r.1, ⟨startHeaderLine action :: r.2.stdoutLines ++ [startFooterLine action],
      r.2.stderrLines, r.2.commands⟩)

/-- The five-line usage banner printed to stdout. -/
def usageBanner : List String :=
  ["Usage: node vm-manager.js <suspend|resume> <VM_ID|- (all VMs)>",
   "       node vm-manager.js status",
   "Example: node vm-manager.js resume vm1",
   "Example: node vm-manager.js suspend -",
   "Example: node vm-manager.js status"]

/-- Error line for an unrecognized action token. -/
def actionErrLine : String :=
  "Error: Action must be \"suspend\", \"resume\", or \"status\"."

/-- First error line for an unreadable or unparsable config.json. -/
def configReadErrLine : String :=
  "Error: Failed to read or parse config.json."

/-- Error line for a config document of the wrong shape. -/
def configFormatErrLine : String :=
  "Error: Invalid config.json format. Missing \"vmrunPath\" or \"virtualMachines\" array."

/-- Error line for a missing suspend/resume target. -/
def vmIdRequiredLine (action : String) : String :=
  "Error: VM_ID (or \x27-\x27) is required for \"" ++ action ++ "\" action."

/-- Error line for an unknown VM identifier. -/
def notFoundLine (vmId : String) : String :=
  "Error: Virtual machine with ID \"" ++ vmId ++ "\" not found. Please check config.json."

/-- Error lines printed when status receives an extra argument. -/
def statusNoIdLines : List String :=
  ["Error: \"status\" action does not take a VM_ID. Did you mean \"status\" without an ID?",
   "Usage: node vm-manager.js status"]

/-- Progress line printed before the suspend-all liveness query. -/
def checkingLine : String :=
  "Checking for running virtual machines to suspend..."

/-- Notice printed when suspend-all finds nothing running. -/
def noRunningToSuspendLine : String :=
  "No running virtual machines found to suspend."

/-- Progress line printed before an all-VMs batch. -/
def initiatingAllLine (action : String) : String :=
  "Initiating " ++ action ++ " process for ALL specified virtual machines..."

/-- Progress line printed before a single-VM action. -/
def initiatingOneLine (action vmName vmId : String) : String :=
  "Initiating " ++ action ++ " process for: " ++ vmName ++ " (ID: " ++ vmId ++ ")..."

/-- Progress line printed before a status query. -/
def listingLine : String :=
  "Listing currently running virtual machines..."

/-- Notice printed when status finds nothing running. -/
def noneRunningLine : String :=
  "No virtual machines are currently running."

/-- Header printed above the status result list. -/
def runningHeaderLine : String :=
  "\nCurrently running virtual machines (from config.json):"

/-- The per-VM line printed by status. -/
def statusLine (vm : VMRecord) : String :=
  "- " ++ vm.name ++ " (ID: " ++ vm.id ++ ")"

/-- Overall result of a program run: the process exit code, console
output, and the subprocess command lines issued, in order. -/
structure MainResult where
  exitCode : Nat
  stdoutLines : List String
  stderrLines : List String
  commands : List String
deriving DecidableEq

/-- The switch statement of main, after argument and config validation:
dispatch on the action with the (possibly absent) second argument.  The
JavaScript guards `if (!vmId)` and `if (vmId)` are falsy/truthy tests on
`args[1]`: an absent argument and the empty string behave alike, which
`jsFalsyStr` models. -/
def mainSwitch (action : String) (vmArg : Option String) (vmList : List VMRecord)
    (vmrunPath : String) (env : Env) : MainResult :=
  if action == "suspend" || action == "resume" then
    if jsFalsyStr vmArg then
      ⟨1, [], [vmIdRequiredLine action], []⟩
    else
      let vmId := vmArg.getD ""
      if vmId == "-" then
        if action == "suspend" then
          let l := listRunningVms vmList vmrunPath env
          if l.1.length == 0 then
            ⟨0, checkingLine :: l.2.stdoutLines ++ [noRunningToSuspendLine],
              l.2.stderrLines, l.2.commands⟩
          else
            let p := processVmsAction action l.1 vmrunPath env
            ⟨0, checkingLine :: l.2.stdoutLines ++ [initiatingAllLine action] ++ p.2.stdoutLines,
              l.2.stderrLines ++ p.2.stderrLines, l.2.commands ++ p.2.commands⟩
        else
          let p := processVmsAction action vmList vmrunPath env
          ⟨0, initiatingAllLine action :: p.2.stdoutLines, p.2.stderrLines, p.2.commands⟩
      else
        match vmList.find? (fun vm => vm.id == vmId) with
        | none => ⟨1, [], [notFoundLine vmId], []⟩
        | some vmConfig =>
          let p := processVmsAction action [vmConfig] vmrunPath env
          ⟨0, initiatingOneLine action vmConfig.name vmId :: p.2.stdoutLines,
            p.2.stderrLines, p.2.commands⟩
  else
    if jsFalsyStr vmArg then
      let l := listRunningVms vmList vmrunPath env
      if l.1.length == 0 then
        ⟨0, listingLine :: l.2.stdoutLines ++ [noneRunningLine],
          l.2.stderrLines, l.2.commands⟩
      else
        ⟨0, listingLine :: l.2.stdoutLines ++ [runningHeaderLine] ++ l.1.map statusLine,
          l.2.stderrLines, l.2.commands⟩
    else ⟨1, [], statusNoIdLines, []⟩

/-- Model of main: the initial arity check (which also rejects status with
an extra argument), action validation on the lower-cased first token,
config-shape validation, then the dispatch switch.  Falling off the end of
the switch exits 0. -/
def main (args : List String) (cfg : ConfigSrc) (env : Env) : MainResult :=
  if args.length < 1 || 2 < args.length ||
      (jsToLower (args.headD "") == "status" && args.length == 2) then
    ⟨1, usageBanner, [], []⟩
  else
    let action := jsToLower (args.headD "")
    if !(["suspend", "resume", "status"].contains action) then
      ⟨1, [], [actionErrLine], []⟩
    else
      match cfg with
      | .readError msg => ⟨1, [], [configReadErrLine, msg], []⟩
      | .parsed doc =>
        if jsFalsyStr doc.vmrunPath || doc.virtualMachines.isNone then
          ⟨1, [], [configFormatErrLine], []⟩
        else
          mainSwitch action args[1]? (doc.virtualMachines.getD [])
            ("\"" ++ doc.vmrunPath.getD "" ++ "\"") env

/-- The invocations claim C4 quantifies over: the argument list is not
exactly one `status` token and not exactly two arguments whose first
token lower-cases to suspend or resume. -/
def badInvocation (args : List String) : Prop :=
  ¬ (args.length = 1 ∧ jsToLower (args.headD "") = "status")
  ∧ ¬ (args.length = 2 ∧
      (jsToLower (args.headD "") = "suspend" ∨ jsToLower (args.headD "") = "resume"))

/-- The invocations on which the source prints the usage banner: bad arity,
or `status` with an extra argument. -/
def usageInvocation (args : List String) : Prop :=
  args.length < 1 ∨ 2 < args.length ∨
    (jsToLower (args.headD "") = "status" ∧ args.length = 2)

/-- Invocations that pass the argument and action checks and therefore
reach config loading: one argument lower-casing to suspend, resume or
status, or two arguments with a suspend/resume first token. -/
def reachesConfig (args : List String) : Prop :=
  (args.length = 1 ∧ (jsToLower (args.headD "") = "suspend"
      ∨ jsToLower (args.headD "") = "resume" ∨ jsToLower (args.headD "") = "status"))
  ∨ (args.length = 2 ∧ (jsToLower (args.headD "") = "suspend"
      ∨ jsToLower (args.headD "") = "resume"))

/-- Configuration sources the loader rejects: a file-read or JSON-parse
failure, a falsy `vmrunPath`, or a `virtualMachines` value that is not an
array. -/
def badConfig : ConfigSrc → Prop
  | .readError _ => True
  | .parsed doc => jsFalsyStr doc.vmrunPath = true ∨ doc.virtualMachines = none

/-- Test fixture: a first configured VM. -/
def vmAlpha : VMRecord := ⟨"vm1", "Alpha", "/vms/a.vmx"⟩

/-- Test fixture: a second configured VM. -/
def vmBeta : VMRecord := ⟨"vm2", "Beta", "/vms/b.vmx"⟩

/-- Test fixture: an environment whose `list` subprocess succeeds with the
given stdout and empty stderr, and where every other command fails. -/
def envOkList (out : String) : Env :=
  fun c => if c == "\"/bin/vmrun\" list" then .ok ⟨out, ""⟩ else .error "spawn ENOENT"

/-- Test fixture: an environment where only the start command for the
first VM succeeds, silently. -/
def envStartA : Env :=
  fun c => if c == "\"/bin/vmrun\" start \"/vms/a.vmx\" nogui" then .ok ⟨"", ""⟩
    else .error "spawn ENOENT"

theorem jsFalsyStr_none : jsFalsyStr none = true := rfl

theorem jsFalsyStr_some (s : String) : jsFalsyStr (some s) = (s == "") := rfl

theorem matchLines_fst (vmList : List VMRecord) (ls : List String) :
    (matchLines vmList ls).1 =
      ls.filterMap (fun p => vmList.find? (fun vm => vm.path == p)) := by
  induction ls with
  | nil => rfl
  | cons p rest ih =>
    simp only [matchLines, List.filterMap_cons]
    cases h : vmList.find? (fun vm => vm.path == p) <;> simp [h, ih]

theorem matchLines_snd (vmList : List VMRecord) (ls : List String) :
    (matchLines vmList ls).2 =
      (ls.filter (fun p => (vmList.find? (fun vm => vm.path == p)).isNone)).map warningLine := by
  induction ls with
  | nil => rfl
  | cons p rest ih =>
    simp only [matchLines, List.filter_cons]
    cases h : vmList.find? (fun vm => vm.path == p) <;> simp [h, ih]

theorem processLoop_results (action vmrunPath : String) (env : Env) (tvs : List VMRecord) :
    (processLoop action vmrunPath env tvs).1 =
      tvs.map (fun vm =>
        (vm, interpretVmResult action vm.name (env (commandFor action vmrunPath vm.path)))) := by
  induction tvs with
  | nil => rfl
  | cons vm rest ih => simp [processLoop, ih]

theorem processLoop_commands (action vmrunPath : String) (env : Env) (tvs : List VMRecord) :
    (processLoop action vmrunPath env tvs).2.commands =
      tvs.map (fun vm => commandFor action vmrunPath vm.path) := by
  induction tvs with
  | nil => rfl
  | cons vm rest ih => simp [processLoop, ih]

theorem processLoop_failure_reported (action vmrunPath : String) (env : Env)
    (tvs : List VMRecord) (vm : VMRecord) (msg : String)
    (hmem : vm ∈ tvs)
    (hfail : interpretVmResult action vm.name (env (commandFor action vmrunPath vm.path)) =
      .failure msg) :
    ("  " ++ msg) ∈ (processLoop action vmrunPath env tvs).2.stderrLines := by
  induction tvs with
  | nil => cases hmem
  | cons v rest ih =>
    simp only [processLoop]
    rcases List.mem_cons.mp hmem with h | h
    · subst h
      rw [hfail]
      simp [outcomeLines]
    · cases ho : interpretVmResult action v.name (env (commandFor action vmrunPath v.path)) <;>
        simp [outcomeLines, ih h]

theorem processVmsAction_commands (action vmrunPath : String) (env : Env)
    (tvs : List VMRecord) :
    (processVmsAction action tvs vmrunPath env).2.commands =
      tvs.map (fun vm => commandFor action vmrunPath vm.path) := by
  cases tvs with
  | nil => rfl
  | cons vm rest => simp [processVmsAction, processLoop_commands]

theorem listRunningVms_commands (vmList : List VMRecord) (vmrunPath : String) (env : Env) :
    (listRunningVms vmList vmrunPath env).2.commands = [vmrunPath ++ " list"] := by
  unfold listRunningVms
  cases h : env (vmrunPath ++ " list") with
  | error e => simp [h]
  | ok out =>
    simp only [h]
    split <;> simp

theorem main_two_args_to_switch (a t vp : String) (vmList : List VMRecord) (env : Env)
    (ha : jsToLower a = "suspend" ∨ jsToLower a = "resume")
    (hvp : vp ≠ "") :
    main [a, t] (.parsed ⟨some vp, some vmList⟩) env =
      mainSwitch (jsToLower a) (some t) vmList ("\"" ++ vp ++ "\"") env := by
  have hb : (vp == "") = false := by simpa using hvp
  rcases ha with h | h <;> simp [main, h, jsFalsyStr, hb]

theorem main_status_to_switch (vp : String) (vmList : List VMRecord) (env : Env)
    (hvp : vp ≠ "") :
    main ["status"] (.parsed ⟨some vp, some vmList⟩) env =
      mainSwitch "status" none vmList ("\"" ++ vp ++ "\"") env := by
  have hb : (vp == "") = false := by simpa using hvp
  have ht : jsToLower "status" = "status" := rfl
  simp [main, ht, jsFalsyStr, hb]

/-- C1: for a completed `list` subprocess, the interpreter discards the
first stdout line as a header, trims each subsequent line, drops empty
lines, matches each remaining line against the configured VM list by exact
equality on `path`, excludes unmatched paths (reporting them as warning
lines) and, when stderr is non-empty while trimmed stdout is empty,
returns the empty result with no error output. -/
theorem C1_list_output_interpretation (vmList : List VMRecord)
    (vmrunPath : String) (env : Env) (out : ExecOut)
    (h : env (vmrunPath ++ " list") = .ok out) :
    (out.stderr ≠ "" → jsTrim out.stdout = "" →
      listRunningVms vmList vmrunPath env = ([], ⟨[], [], [vmrunPath ++ " list"]⟩))
    ∧ (¬ (out.stderr ≠ "" ∧ jsTrim out.stdout = "") →
      (listRunningVms vmList vmrunPath env).1 =
          (jsLines out.stdout).filterMap (fun p => vmList.find? (fun vm => vm.path == p))
      ∧ (listRunningVms vmList vmrunPath env).2.stdoutLines =
          ((jsLines out.stdout).filter
            (fun p => (vmList.find? (fun vm => vm.path == p)).isNone)).map warningLine
      ∧ (listRunningVms vmList vmrunPath env).2.stderrLines = []) := by
  constructor
  · intro h1 h2
    simp [listRunningVms, h, h1, h2]
  · intro hn
    have hc : (out.stderr != "" && jsTrim out.stdout == "") = false := by
      rcases not_and_or.mp hn with h1 | h1
      · simp only [ne_eq, not_not] at h1
        simp [h1]
      · simp [h1]
    simp [listRunningVms, h, hc, matchLines_fst, matchLines_snd]

/-- Witness for C1: a concrete `list` output with a header, one configured
path and one unconfigured path. -/
theorem C1_witness :
    (envOkList "Total running VMs: 2\n/vms/a.vmx\n/vms/other.vmx\n"
        ("\"/bin/vmrun\"" ++ " list") =
      .ok ⟨"Total running VMs: 2\n/vms/a.vmx\n/vms/other.vmx\n", ""⟩)
    ∧ ¬ ((ExecOut.mk "Total running VMs: 2\n/vms/a.vmx\n/vms/other.vmx\n" "").stderr ≠ ""
        ∧ jsTrim (ExecOut.mk "Total running VMs: 2\n/vms/a.vmx\n/vms/other.vmx\n" "").stdout = "")
    ∧ (listRunningVms [vmAlpha, vmBeta] "\"/bin/vmrun\""
        (envOkList "Total running VMs: 2\n/vms/a.vmx\n/vms/other.vmx\n")).1 = [vmAlpha]
    ∧ (listRunningVms [vmAlpha, vmBeta] "\"/bin/vmrun\""
        (envOkList "Total running VMs: 2\n/vms/a.vmx\n/vms/other.vmx\n")).2.stdoutLines =
      ["- Warning: Running VM not found in config.json: /vms/other.vmx"] := by
  refine ⟨rfl, by decide, ?_, ?_⟩
  · have := ((C1_list_output_interpretation [vmAlpha, vmBeta] "\"/bin/vmrun\""
      (envOkList "Total running VMs: 2\n/vms/a.vmx\n/vms/other.vmx\n")
      ⟨"Total running VMs: 2\n/vms/a.vmx\n/vms/other.vmx\n", ""⟩ rfl).2 (by decide)).1
    rw [this]; decide
  · have := ((C1_list_output_interpretation [vmAlpha, vmBeta] "\"/bin/vmrun\""
      (envOkList "Total running VMs: 2\n/vms/a.vmx\n/vms/other.vmx\n")
      ⟨"Total running VMs: 2\n/vms/a.vmx\n/vms/other.vmx\n", ""⟩ rfl).2 (by decide)).2.1
    rw [this]; decide

/-- C2: for a completed suspend/resume subprocess, stderr containing the
literal substring "Error:" makes the action a failure for that VM with the
error text; non-empty stderr without that substring is still a success
with the stderr text attached; empty stderr is a plain success; and an
execution-layer failure is always a failure for that VM. -/
theorem C2_action_result_interpretation (action vmName : String) :
    (∀ out : ExecOut, jsIncludes out.stderr "Error:" = true →
      interpretVmResult action vmName (.ok out) =
        .failure (errorMsgFor action vmName ++ " Error: " ++ jsTrim out.stderr))
    ∧ (∀ out : ExecOut, out.stderr ≠ "" → jsIncludes out.stderr "Error:" = false →
      interpretVmResult action vmName (.ok out) = .success (some (jsTrim out.stderr)))
    ∧ (∀ out : ExecOut, out.stderr = "" →
      interpretVmResult action vmName (.ok out) = .success none)
    ∧ (∀ e : String, interpretVmResult action vmName (.error e) =
        .failure (errorMsgFor action vmName ++ " Details: " ++ e)) := by
  refine ⟨?_, ?_, ?_, ?_⟩
  · intro out hinc
    have hne : out.stderr ≠ "" := by
      intro he
      rw [he] at hinc
      exact absurd hinc (by decide)
    simp [interpretVmResult, hne, hinc]
  · intro out hne hninc
    simp [interpretVmResult, hne, hninc]
  · intro out he
    simp [interpretVmResult, he]
  · intro e
    rfl

/-- Witness for C2: one concrete subprocess result for each of the four
cases. -/
theorem C2_witness :
    jsIncludes "Error: VM not found" "Error:" = true
    ∧ interpretVmResult "suspend" "Alpha" (.ok ⟨"", "Error: VM not found"⟩) =
        .failure "Failed to suspend \"Alpha\". Error: Error: VM not found"
    ∧ interpretVmResult "suspend" "Alpha" (.ok ⟨"", "warning only "⟩) =
        .success (some "warning only")
    ∧ interpretVmResult "suspend" "Alpha" (.ok ⟨"out", ""⟩) = .success none
    ∧ interpretVmResult "resume" "Beta" (.error "spawn ENOENT") =
        .failure "Failed to resume \"Beta\". Details: spawn ENOENT" :=
  ⟨by decide,
   (C2_action_result_interpretation "suspend" "Alpha").1 ⟨"", "Error: VM not found"⟩ (by decide),
   (C2_action_result_interpretation "suspend" "Alpha").2.1 ⟨"", "warning only "⟩ (by decide) (by decide),
   (C2_action_result_interpretation "suspend" "Alpha").2.2.1 ⟨"out", ""⟩ rfl,
   (C2_action_result_interpretation "resume" "Beta").2.2.2 "spawn ENOENT"⟩

/-- C3: with the all-sentinel target `-`, resume operates on the entire
configured VM list regardless of running state (no prior list query),
while suspend first issues a `list` query and operates only on the VMs
reported running; when that query yields none, the program prints the
"No running virtual machines found to suspend." notice and exits 0
without issuing any suspend command. -/
theorem C3_all_sentinel_behaviour (vp : String) (vmList : List VMRecord) (env : Env)
    (hvp : vp ≠ "") :
    ((main ["resume", "-"] (.parsed ⟨some vp, some vmList⟩) env).commands =
      vmList.map (fun vm => resumeCmd ("\"" ++ vp ++ "\"") vm.path))
    ∧ ((main ["suspend", "-"] (.parsed ⟨some vp, some vmList⟩) env).commands =
      ("\"" ++ vp ++ "\"" ++ " list") ::
        (listRunningVms vmList ("\"" ++ vp ++ "\"") env).1.map
          (fun vm => suspendCmd ("\"" ++ vp ++ "\"") vm.path))
    ∧ ((listRunningVms vmList ("\"" ++ vp ++ "\"") env).1 = [] →
      (main ["suspend", "-"] (.parsed ⟨some vp, some vmList⟩) env).exitCode = 0
      ∧ noRunningToSuspendLine ∈
          (main ["suspend", "-"] (.parsed ⟨some vp, some vmList⟩) env).stdoutLines
      ∧ (main ["suspend", "-"] (.parsed ⟨some vp, some vmList⟩) env).commands =
          ["\"" ++ vp ++ "\"" ++ " list"]) := by
  have hres := main_two_args_to_switch "resume" "-" vp vmList env (Or.inr rfl) hvp
  have hsus := main_two_args_to_switch "suspend" "-" vp vmList env (Or.inl rfl) hvp
  have hlr : jsToLower "resume" = "resume" := rfl
  have hls : jsToLower "suspend" = "suspend" := rfl
  rw [hlr] at hres
  rw [hls] at hsus
  refine ⟨?_, ?_, ?_⟩
  · rw [hres]
    simp [mainSwitch, jsFalsyStr_none, jsFalsyStr_some, processVmsAction_commands, commandFor]
  · rw [hsus]
    by_cases hz : (listRunningVms vmList ("\"" ++ vp ++ "\"") env).1 = []
    · simp [mainSwitch, jsFalsyStr_none, jsFalsyStr_some, hz, listRunningVms_commands]
    · have hlen : ((listRunningVms vmList ("\"" ++ vp ++ "\"") env).1.length == 0) = false := by
        simpa [List.length_eq_zero] using hz
      simp [mainSwitch, jsFalsyStr_none, jsFalsyStr_some, hlen, listRunningVms_commands, processVmsAction_commands, commandFor, hz]
  · intro hz
    rw [hsus]
    simp [mainSwitch, jsFalsyStr_none, jsFalsyStr_some, hz, listRunningVms_commands]

/-- Witness for C3: one configured VM, a `list` query reporting nothing
running; suspend-all exits 0 after only the list command, resume-all
issues the start command. -/
theorem C3_witness :
    ("/bin/vmrun" : String) ≠ ""
    ∧ (listRunningVms [vmAlpha] "\"/bin/vmrun\"" (envOkList "Total running VMs: 0\n")).1 = []
    ∧ (main ["suspend", "-"] (.parsed ⟨some "/bin/vmrun", some [vmAlpha]⟩)
        (envOkList "Total running VMs: 0\n")).exitCode = 0
    ∧ noRunningToSuspendLine ∈
        (main ["suspend", "-"] (.parsed ⟨some "/bin/vmrun", some [vmAlpha]⟩)
          (envOkList "Total running VMs: 0\n")).stdoutLines
    ∧ (main ["suspend", "-"] (.parsed ⟨some "/bin/vmrun", some [vmAlpha]⟩)
        (envOkList "Total running VMs: 0\n")).commands = ["\"/bin/vmrun\"" ++ " list"]
    ∧ (main ["resume", "-"] (.parsed ⟨some "/bin/vmrun", some [vmAlpha]⟩)
        (envOkList "Total running VMs: 0\n")).commands =
      [resumeCmd "\"/bin/vmrun\"" "/vms/a.vmx"] := by
  have h := C3_all_sentinel_behaviour "/bin/vmrun" [vmAlpha]
    (envOkList "Total running VMs: 0\n") (by decide)
  have hz : (listRunningVms [vmAlpha] "\"/bin/vmrun\""
      (envOkList "Total running VMs: 0\n")).1 = [] := by decide
  have h3 := h.2.2 hz
  exact ⟨by decide, hz, h3.1, h3.2.1, h3.2.2, by rw [h.1]; decide⟩

/-- Counterexample to C4 as stated: `["foo"]` has an unrecognized first
token, so the claim asserts usage text on standard output; the program
does exit 1 but prints nothing to standard output — the diagnostic goes
to standard error. -/
theorem C4_counterexample :
    badInvocation ["foo"]
    ∧ (main ["foo"] (.parsed ⟨some "/bin/vmrun", some [vmAlpha]⟩)
        (envOkList "Total running VMs: 0\n")).exitCode = 1
    ∧ (main ["foo"] (.parsed ⟨some "/bin/vmrun", some [vmAlpha]⟩)
        (envOkList "Total running VMs: 0\n")).stdoutLines = []
    ∧ (main ["foo"] (.parsed ⟨some "/bin/vmrun", some [vmAlpha]⟩)
        (envOkList "Total running VMs: 0\n")).stderrLines = [actionErrLine] := by
  refine ⟨⟨by decide, by decide⟩, by decide, by decide, by decide⟩

/-- C4 amended: every invocation outside the accepted shapes exits with
code 1; the usage banner is printed to standard output exactly when the
argument count is 0 or more than 2, or the first token lower-cases to
"status" with a second argument present; otherwise nothing is printed to
standard output and an error is printed to standard error instead. -/
theorem C4_amended (args : List String) (cfg : ConfigSrc) (env : Env)
    (hbad : badInvocation args) :
    (main args cfg env).exitCode = 1
    ∧ (usageInvocation args → (main args cfg env).stdoutLines = usageBanner)
    ∧ (¬ usageInvocation args →
        (main args cfg env).stdoutLines = [] ∧ (main args cfg env).stderrLines ≠ []) := by
  obtain ⟨hb1, hb2⟩ := hbad
  rcases args with _ | ⟨a, _ | ⟨b, _ | ⟨c, rest⟩⟩⟩
  · exact ⟨rfl, fun _ => rfl, fun h => absurd (Or.inl (by simp)) h⟩
  · have hnu : ¬ usageInvocation [a] := by
      simp [usageInvocation]
    by_cases hs : jsToLower a = "suspend"
    · refine ⟨?_, fun h => absurd h hnu, fun _ => ?_⟩ <;>
        cases cfg with
        | readError msg => simp [main, hs]
        | parsed doc =>
          by_cases hf : (jsFalsyStr doc.vmrunPath || doc.virtualMachines.isNone) = true <;>
            simp [main, hs, hf, mainSwitch, jsFalsyStr_none]
    · by_cases hr : jsToLower a = "resume"
      · refine ⟨?_, fun h => absurd h hnu, fun _ => ?_⟩ <;>
          cases cfg with
          | readError msg => simp [main, hr]
          | parsed doc =>
            by_cases hf : (jsFalsyStr doc.vmrunPath || doc.virtualMachines.isNone) = true <;>
              simp [main, hr, hf, mainSwitch, jsFalsyStr_none]
      · have hst : jsToLower a ≠ "status" := fun h => hb1 ⟨rfl, h⟩
        have e1 : (jsToLower a == "suspend") = false := beq_eq_false_iff_ne.mpr hs
        have e2 : (jsToLower a == "resume") = false := beq_eq_false_iff_ne.mpr hr
        have e3 : (jsToLower a == "status") = false := beq_eq_false_iff_ne.mpr hst
        refine ⟨?_, fun h => absurd h hnu, fun _ => ?_⟩ <;>
          simp [main, e1, e2, e3, List.contains, hs, hr, hst]
  · by_cases hst : jsToLower a = "status"
    · have hu : usageInvocation [a, b] := Or.inr (Or.inr ⟨hst, rfl⟩)
      refine ⟨?_, fun _ => ?_, fun h => absurd hu h⟩ <;> simp [main, hst]
    · have hnu : ¬ usageInvocation [a, b] := by
        simp [usageInvocation, hst]
      have hs : jsToLower a ≠ "suspend" := fun h => hb2 ⟨rfl, Or.inl h⟩
      have hr : jsToLower a ≠ "resume" := fun h => hb2 ⟨rfl, Or.inr h⟩
      have e1 : (jsToLower a == "suspend") = false := beq_eq_false_iff_ne.mpr hs
      have e2 : (jsToLower a == "resume") = false := beq_eq_false_iff_ne.mpr hr
      have e3 : (jsToLower a == "status") = false := beq_eq_false_iff_ne.mpr hst
      refine ⟨?_, fun h => absurd h hnu, fun _ => ?_⟩ <;>
        simp [main, e1, e2, e3, List.contains, hs, hr, hst]
  · have hu : usageInvocation (a :: b :: c :: rest) := by
      right; left; simp
    have hlen : 2 < (a :: b :: c :: rest).length := by simp
    refine ⟨?_, fun _ => ?_, fun h => absurd hu h⟩ <;> simp [main, hlen]

/-- Witness for C4 amended: `suspend` without a target exits 1 with no
usage banner; an empty argument list prints the banner. -/
theorem C4_witness :
    badInvocation ["suspend"]
    ∧ (main ["suspend"] (.parsed ⟨some "/bin/vmrun", some [vmAlpha]⟩)
        (envOkList "Total running VMs: 0\n")).exitCode = 1
    ∧ badInvocation []
    ∧ (main [] (.parsed ⟨some "/bin/vmrun", some [vmAlpha]⟩)
        (envOkList "Total running VMs: 0\n")).stdoutLines = usageBanner :=
  ⟨⟨by decide, by decide⟩,
   (C4_amended ["suspend"] (.parsed ⟨some "/bin/vmrun", some [vmAlpha]⟩)
     (envOkList "Total running VMs: 0\n") ⟨by decide, by decide⟩).1,
   ⟨by decide, by decide⟩,
   (C4_amended [] (.parsed ⟨some "/bin/vmrun", some [vmAlpha]⟩)
     (envOkList "Total running VMs: 0\n") ⟨by decide, by decide⟩).2.1 (Or.inl (by decide))⟩

/-- C5: for every invocation that reaches config loading, a file-read or
parse failure, a missing or empty `vmrunPath`, or a non-array
`virtualMachines` makes the program print an error to standard error and
exit with code 1 without issuing any subprocess command. -/
theorem C5_config_validation (args : List String) (cfg : ConfigSrc) (env : Env)
    (hargs : reachesConfig args) (hcfg : badConfig cfg) :
    (main args cfg env).exitCode = 1
    ∧ (main args cfg env).stderrLines ≠ []
    ∧ (main args cfg env).commands = [] := by
  have hbc : ∀ doc : RawConfig, cfg = .parsed doc →
      (jsFalsyStr doc.vmrunPath || doc.virtualMachines.isNone) = true := by
    intro doc hd
    rw [hd] at hcfg
    rcases hcfg with h | h <;> simp [h]
  rcases hargs with ⟨h1, hact⟩ | ⟨h2, hact⟩
  · obtain ⟨a, rfl⟩ := List.length_eq_one.mp h1
    simp only [List.headD_cons] at hact
    rcases hact with ha | ha | ha <;>
      cases cfg with
      | readError msg => simp [main, ha]
      | parsed doc => simp [main, ha, hbc doc rfl]
  · match args, hact, h2 with
    | [a, b], hact, _ =>
      simp only [List.headD_cons] at hact
      rcases hact with ha | ha <;>
        cases cfg with
        | readError msg => simp [main, ha]
        | parsed doc => simp [main, ha, hbc doc rfl]

/-- Witness for C5: a config whose `vmrunPath` is the empty string makes
`status` exit 1 with no subprocess issued. -/
theorem C5_witness :
    reachesConfig ["status"]
    ∧ badConfig (.parsed ⟨some "", some [vmAlpha]⟩)
    ∧ (main ["status"] (.parsed ⟨some "", some [vmAlpha]⟩)
        (envOkList "Total running VMs: 0\n")).exitCode = 1
    ∧ (main ["status"] (.parsed ⟨some "", some [vmAlpha]⟩)
        (envOkList "Total running VMs: 0\n")).commands = [] := by
  have h := C5_config_validation ["status"] (.parsed ⟨some "", some [vmAlpha]⟩)
    (envOkList "Total running VMs: 0\n") (Or.inl ⟨rfl, Or.inr (Or.inr rfl)⟩)
    (Or.inl (by decide))
  exact ⟨Or.inl ⟨rfl, Or.inr (Or.inr rfl)⟩, Or.inl (by decide), h.1, h.2.2⟩

/-- C6: the command lines issued are exactly `<tool> list`,
`<tool> suspend "<vmPath>"` and `<tool> start "<vmPath>" nogui`, with the
tool path and descriptor path wrapped in double quotes, and a clean
resume prints the per-VM success line. -/
theorem C6_exact_commands (vp vmId : String) (vmList : List VMRecord)
    (vm : VMRecord) (env : Env)
    (hvp : vp ≠ "")
    (hid : vmId ≠ "-")
    (hid0 : vmId ≠ "")
    (hfind : vmList.find? (fun v => v.id == vmId) = some vm) :
    ((main ["status"] (.parsed ⟨some vp, some vmList⟩) env).commands =
      [("\"" ++ vp ++ "\"") ++ " list"])
    ∧ ((main ["suspend", vmId] (.parsed ⟨some vp, some vmList⟩) env).commands =
      [("\"" ++ vp ++ "\"") ++ " suspend \"" ++ vm.path ++ "\""])
    ∧ ((main ["resume", vmId] (.parsed ⟨some vp, some vmList⟩) env).commands =
      [("\"" ++ vp ++ "\"") ++ " start \"" ++ vm.path ++ "\" nogui"])
    ∧ (∀ so : String,
        env (("\"" ++ vp ++ "\"") ++ " start \"" ++ vm.path ++ "\" nogui") = .ok ⟨so, ""⟩ →
        ("  " ++ successMsgFor "resume" vm.name) ∈
          (main ["resume", vmId] (.parsed ⟨some vp, some vmList⟩) env).stdoutLines) := by
  have hsus := main_two_args_to_switch "suspend" vmId vp vmList env (Or.inl rfl) hvp
  have hres := main_two_args_to_switch "resume" vmId vp vmList env (Or.inr rfl) hvp
  have hst := main_status_to_switch vp vmList env hvp
  have hls : jsToLower "suspend" = "suspend" := rfl
  have hlr : jsToLower "resume" = "resume" := rfl
  rw [hls] at hsus
  rw [hlr] at hres
  have hdash : (vmId == "-") = false := beq_eq_false_iff_ne.mpr hid
  have hempty : (vmId == "") = false := beq_eq_false_iff_ne.mpr hid0
  refine ⟨?_, ?_, ?_, ?_⟩
  · rw [hst]
    by_cases hz : ((listRunningVms vmList ("\"" ++ vp ++ "\"") env).1.length == 0) = true
    · simp [mainSwitch, jsFalsyStr_none, jsFalsyStr_some, hz, listRunningVms_commands]
    · have hz2 := eq_false_of_ne_true hz
      simp [mainSwitch, jsFalsyStr_none, jsFalsyStr_some, hz2, listRunningVms_commands]
  · rw [hsus]
    simp [mainSwitch, jsFalsyStr_some, hempty, hdash, hfind, processVmsAction_commands,
      commandFor, suspendCmd]
  · rw [hres]
    simp [mainSwitch, jsFalsyStr_some, hempty, hdash, hfind, processVmsAction_commands,
      commandFor, resumeCmd]
  · intro so henv
    rw [hres]
    simp [mainSwitch, jsFalsyStr_some, hempty, hdash, hfind, processVmsAction, processLoop,
      commandFor, resumeCmd, henv, interpretVmResult, outcomeLines]

/-- Witness for C6, scenario A: config `/bin/vmrun` with VM `vm1` (Alpha);
`resume vm1` issues exactly `"/bin/vmrun" start "/vms/a.vmx" nogui` and on
clean exit prints the success line naming Alpha. -/
theorem C6_witness :
    ([vmAlpha].find? (fun v => v.id == "vm1") = some vmAlpha)
    ∧ (main ["resume", "vm1"] (.parsed ⟨some "/bin/vmrun", some [vmAlpha]⟩)
        envStartA).commands = ["\"/bin/vmrun\" start \"/vms/a.vmx\" nogui"]
    ∧ "  \"Alpha\" resumed successfully." ∈
        (main ["resume", "vm1"] (.parsed ⟨some "/bin/vmrun", some [vmAlpha]⟩)
          envStartA).stdoutLines := by
  have h := C6_exact_commands "/bin/vmrun" "vm1" [vmAlpha] vmAlpha envStartA
    (by decide) (by decide) (by decide) (by decide)
  exact ⟨by decide, by rw [h.2.2.1]; decide, h.2.2.2 "" rfl⟩


/-- C7: a specific suspend/resume target is resolved by linear search
over the configured list with exact string equality on `id`; when no
record matches, the program reports an error naming the identifier and
exits 1 without issuing any subprocess command; when one matches, exactly
that record is acted on. -/
theorem C7_specific_id_lookup (a vmId vp : String) (vmList : List VMRecord) (env : Env)
    (ha : jsToLower a = "suspend" ∨ jsToLower a = "resume")
    (hvp : vp ≠ "")
    (hid : vmId ≠ "-")
    (hid0 : vmId ≠ "") :
    (vmList.find? (fun v => v.id == vmId) = none →
      (main [a, vmId] (.parsed ⟨some vp, some vmList⟩) env).exitCode = 1
      ∧ (main [a, vmId] (.parsed ⟨some vp, some vmList⟩) env).commands = []
      ∧ notFoundLine vmId ∈
          (main [a, vmId] (.parsed ⟨some vp, some vmList⟩) env).stderrLines)
    ∧ (∀ vm : VMRecord, vmList.find? (fun v => v.id == vmId) = some vm →
      (main [a, vmId] (.parsed ⟨some vp, some vmList⟩) env).commands =
        [commandFor (jsToLower a) ("\"" ++ vp ++ "\"") vm.path]) := by
  have hm := main_two_args_to_switch a vmId vp vmList env ha hvp
  have hdash : (vmId == "-") = false := beq_eq_false_iff_ne.mpr hid
  have hempty : (vmId == "") = false := beq_eq_false_iff_ne.mpr hid0
  constructor
  · intro hnone
    rw [hm]
    rcases ha with h | h <;> rw [h] <;>
      simp [mainSwitch, jsFalsyStr_some, hempty, hdash, hnone]
  · intro vm hsome
    rw [hm]
    rcases ha with h | h <;> rw [h] <;>
      simp [mainSwitch, jsFalsyStr_some, hempty, hdash, hsome, processVmsAction_commands]

/-- Witness for C7: `suspend vm2` against a config containing only vm1
exits 1 with no command issued. -/
theorem C7_witness :
    ([vmAlpha].find? (fun v => v.id == "vm2") = none)
    ∧ (main ["suspend", "vm2"] (.parsed ⟨some "/bin/vmrun", some [vmAlpha]⟩)
        envStartA).exitCode = 1
    ∧ (main ["suspend", "vm2"] (.parsed ⟨some "/bin/vmrun", some [vmAlpha]⟩)
        envStartA).commands = []
    ∧ notFoundLine "vm2" ∈
        (main ["suspend", "vm2"] (.parsed ⟨some "/bin/vmrun", some [vmAlpha]⟩)
          envStartA).stderrLines := by
  have h := (C7_specific_id_lookup "suspend" "vm2" "/bin/vmrun" [vmAlpha] envStartA
    (Or.inl rfl) (by decide) (by decide) (by decide)).1 (by decide)
  exact ⟨by decide, h.1, h.2.1, h.2.2⟩

/-- C8: a batch resume-all loop reports every per-VM failure on standard
error, continues through the whole configured list in order (one command
per VM), and the process exits 0 even when every action failed. -/
theorem C8_batch_best_effort (vp : String) (vmList : List VMRecord) (env : Env)
    (hvp : vp ≠ "") :
    ((main ["resume", "-"] (.parsed ⟨some vp, some vmList⟩) env).exitCode = 0)
    ∧ ((main ["resume", "-"] (.parsed ⟨some vp, some vmList⟩) env).commands =
        vmList.map (fun vm => resumeCmd ("\"" ++ vp ++ "\"") vm.path))
    ∧ (∀ vm ∈ vmList, ∀ msg : String,
        interpretVmResult "resume" vm.name
            (env (commandFor "resume" ("\"" ++ vp ++ "\"") vm.path)) = .failure msg →
        ("  " ++ msg) ∈
          (main ["resume", "-"] (.parsed ⟨some vp, some vmList⟩) env).stderrLines) := by
  have hm := main_two_args_to_switch "resume" "-" vp vmList env (Or.inr rfl) hvp
  have hl : jsToLower "resume" = "resume" := rfl
  rw [hl] at hm
  refine ⟨?_, ?_, ?_⟩
  · rw [hm]
    simp [mainSwitch, jsFalsyStr_none, jsFalsyStr_some]
  · rw [hm]
    simp [mainSwitch, jsFalsyStr_none, jsFalsyStr_some, processVmsAction_commands, commandFor]
  · intro vm hmem msg hfail
    rw [hm]
    have hne : (vmList.length == 0) = false := by
      cases vmList
      · cases hmem
      · simp
    simp [mainSwitch, jsFalsyStr_none, jsFalsyStr_some, processVmsAction, hne]
    exact processLoop_failure_reported "resume" ("\"" ++ vp ++ "\"") env vmList vm msg hmem hfail

/-- Witness for C8: two configured VMs, every subprocess fails to launch;
both commands are still issued, both failures reported, exit code 0. -/
theorem C8_witness :
    ((main ["resume", "-"] (.parsed ⟨some "/bin/vmrun", some [vmAlpha, vmBeta]⟩)
        (fun _ => .error "spawn ENOENT")).exitCode = 0)
    ∧ ((main ["resume", "-"] (.parsed ⟨some "/bin/vmrun", some [vmAlpha, vmBeta]⟩)
        (fun _ => .error "spawn ENOENT")).commands =
      ["\"/bin/vmrun\" start \"/vms/a.vmx\" nogui", "\"/bin/vmrun\" start \"/vms/b.vmx\" nogui"])
    ∧ ("  Failed to resume \"Alpha\". Details: spawn ENOENT") ∈
        (main ["resume", "-"] (.parsed ⟨some "/bin/vmrun", some [vmAlpha, vmBeta]⟩)
          (fun _ => .error "spawn ENOENT")).stderrLines
    ∧ ("  Failed to resume \"Beta\". Details: spawn ENOENT") ∈
        (main ["resume", "-"] (.parsed ⟨some "/bin/vmrun", some [vmAlpha, vmBeta]⟩)
          (fun _ => .error "spawn ENOENT")).stderrLines := by
  have h := C8_batch_best_effort "/bin/vmrun" [vmAlpha, vmBeta]
    (fun _ => .error "spawn ENOENT") (by decide)
  refine ⟨h.1, by rw [h.2.1]; decide, ?_, ?_⟩
  · exact h.2.2 vmAlpha (by decide) "Failed to resume \"Alpha\". Details: spawn ENOENT" rfl
  · exact h.2.2 vmBeta (by decide) "Failed to resume \"Beta\". Details: spawn ENOENT" rfl


/-- C9: when the `list` subprocess itself fails at the execution layer,
listRunningVms prints a failure message to standard error and returns the
empty list, so `status` reports that no virtual machines are running and
exits 0, and `suspend -` reports nothing to suspend and exits 0 with no
suspend command issued — indistinguishable from no VMs running. -/
theorem C9_list_exec_failure (vp e : String) (vmList : List VMRecord) (env : Env)
    (hvp : vp ≠ "")
    (henv : env (("\"" ++ vp ++ "\"") ++ " list") = .error e) :
    (listRunningVms vmList ("\"" ++ vp ++ "\"") env =
      ([], ⟨[], ["Failed to list running VMs: " ++ e], [("\"" ++ vp ++ "\"") ++ " list"]⟩))
    ∧ ((main ["status"] (.parsed ⟨some vp, some vmList⟩) env).exitCode = 0
      ∧ noneRunningLine ∈ (main ["status"] (.parsed ⟨some vp, some vmList⟩) env).stdoutLines
      ∧ ("Failed to list running VMs: " ++ e) ∈
          (main ["status"] (.parsed ⟨some vp, some vmList⟩) env).stderrLines)
    ∧ ((main ["suspend", "-"] (.parsed ⟨some vp, some vmList⟩) env).exitCode = 0
      ∧ noRunningToSuspendLine ∈
          (main ["suspend", "-"] (.parsed ⟨some vp, some vmList⟩) env).stdoutLines
      ∧ (main ["suspend", "-"] (.parsed ⟨some vp, some vmList⟩) env).commands =
          [("\"" ++ vp ++ "\"") ++ " list"]) := by
  have hl : listRunningVms vmList ("\"" ++ vp ++ "\"") env =
      ([], ⟨[], ["Failed to list running VMs: " ++ e], [("\"" ++ vp ++ "\"") ++ " list"]⟩) := by
    simp [listRunningVms, henv]
  have hsus := main_two_args_to_switch "suspend" "-" vp vmList env (Or.inl rfl) hvp
  have hls : jsToLower "suspend" = "suspend" := rfl
  rw [hls] at hsus
  refine ⟨hl, ?_, ?_⟩
  · rw [main_status_to_switch vp vmList env hvp]
    simp [mainSwitch, jsFalsyStr_none, jsFalsyStr_some, hl]
  · rw [hsus]
    simp [mainSwitch, jsFalsyStr_none, jsFalsyStr_some, hl]

/-- Witness for C9: an environment in which every command launch fails. -/
theorem C9_witness :
    ((fun _ => (.error "spawn ENOENT" : ExecResult)) (("\"" ++ "/bin/vmrun" ++ "\"") ++ " list") =
      .error "spawn ENOENT")
    ∧ (main ["status"] (.parsed ⟨some "/bin/vmrun", some [vmAlpha]⟩)
        (fun _ => .error "spawn ENOENT")).exitCode = 0
    ∧ noneRunningLine ∈
        (main ["status"] (.parsed ⟨some "/bin/vmrun", some [vmAlpha]⟩)
          (fun _ => .error "spawn ENOENT")).stdoutLines
    ∧ (main ["suspend", "-"] (.parsed ⟨some "/bin/vmrun", some [vmAlpha]⟩)
        (fun _ => .error "spawn ENOENT")).exitCode = 0
    ∧ noRunningToSuspendLine ∈
        (main ["suspend", "-"] (.parsed ⟨some "/bin/vmrun", some [vmAlpha]⟩)
          (fun _ => .error "spawn ENOENT")).stdoutLines := by
  have h := C9_list_exec_failure "/bin/vmrun" "spawn ENOENT" [vmAlpha]
    (fun _ => .error "spawn ENOENT") (by decide) rfl
  exact ⟨rfl, h.2.1.1, h.2.1.2.1, h.2.2.1, h.2.2.2.1⟩


/-- Appending a fixed prefix and suffix to a string is injective. -/
theorem string_affix_cancel (A B p q : String)
    (h : (A ++ p) ++ B = (A ++ q) ++ B) : p = q := by
  have hd := congrArg String.data h
  simp only [String.data_append] at hd
  have h1 := List.append_cancel_right hd
  have h2 := List.append_cancel_left h1
  exact String.ext h2

/-- The list command is never equal to a suspend command. -/
theorem list_ne_suspend (q p : String) :
    (q ++ " list") ≠ ((q ++ " suspend \"") ++ p) ++ "\"" := by
  intro h
  have hd := congrArg String.data h
  simp only [String.data_append] at hd
  rw [List.append_assoc, List.append_assoc] at hd
  have h2 := List.append_cancel_left hd
  simp at h2

/-- Every record produced by the matching pipeline is the first configured
record with its path. -/
theorem find?_path_of_mem_filterMap (vmList : List VMRecord) (ls : List String) (v : VMRecord)
    (hv : v ∈ ls.filterMap (fun p => vmList.find? (fun u => u.path == p))) :
    vmList.find? (fun u => u.path == v.path) = some v := by
  obtain ⟨p, hp, hfp⟩ := List.mem_filterMap.mp hv
  have hvp : v.path = p := by simpa using List.find?_some hfp
  rw [hvp]
  exact hfp

/-- How often a record occurs in the matched list equals how often its
path occurs among the processed lines. -/
theorem count_filterMap_path (vmList : List VMRecord) (ls : List String) (vm : VMRecord)
    (hfind : vmList.find? (fun u => u.path == vm.path) = some vm) :
    (ls.filterMap (fun p => vmList.find? (fun u => u.path == p))).count vm =
      ls.count vm.path := by
  induction ls with
  | nil => simp
  | cons p rest ih =>
    simp only [List.filterMap_cons]
    by_cases hp : p = vm.path
    · subst hp
      rw [hfind]
      simp [List.count_cons, ih]
    · cases hf : vmList.find? (fun u => u.path == p) with
      | none => simp [List.count_cons, hp, ih]
      | some w =>
        have hw : w.path = p := by simpa using List.find?_some hf
        have hwv : w ≠ vm := by
          intro he
          subst he
          exact hp hw.symm
        simp [List.count_cons, hp, hwv, ih]

/-- Command lines built from the paths of matched records occur as often
as the records themselves. -/
theorem count_map_affix_cmd (vmList running : List VMRecord) (vm : VMRecord) (A B : String)
    (hall : ∀ v ∈ running, vmList.find? (fun u => u.path == v.path) = some v)
    (hfind : vmList.find? (fun u => u.path == vm.path) = some vm) :
    (running.map (fun v => (A ++ v.path) ++ B)).count ((A ++ vm.path) ++ B) =
      running.count vm := by
  induction running with
  | nil => simp
  | cons v rest ih =>
    have hv := hall v (List.mem_cons_self v rest)
    have hrest : ∀ u ∈ rest, vmList.find? (fun w => w.path == u.path) = some u :=
      fun u hu => hall u (List.mem_cons_of_mem v hu)
    simp only [List.map_cons, List.count_cons]
    rw [ih hrest]
    by_cases he : v = vm
    · subst he
      simp
    · have hpne : v.path ≠ vm.path := by
        intro hpp
        rw [hpp] at hv
        rw [hv] at hfind
        exact he (Option.some.inj hfind)
      have h2 : ((A ++ v.path) ++ B) ≠ ((A ++ vm.path) ++ B) := by
        intro hc
        exact hpne (string_affix_cancel A B v.path vm.path hc)
      simp [he, h2]


/-- C10: listRunningVms performs no deduplication — a configured
descriptor path appearing on n lines after the header puts the matching
record n times into the result, so `status` prints that VM once per
occurrence and `suspend -` issues its suspend command n times. -/
theorem C10_no_dedup (vp : String) (vmList : List VMRecord) (vm : VMRecord)
    (env : Env) (out : ExecOut)
    (hvp : vp ≠ "")
    (henv : env (("\"" ++ vp ++ "\"") ++ " list") = .ok out)
    (hns : (out.stderr != "" && jsTrim out.stdout == "") = false)
    (hfind : vmList.find? (fun u => u.path == vm.path) = some vm)
    (hpos : 1 ≤ (jsLines out.stdout).count vm.path) :
    ((listRunningVms vmList ("\"" ++ vp ++ "\"") env).1.count vm =
      (jsLines out.stdout).count vm.path)
    ∧ ((main ["status"] (.parsed ⟨some vp, some vmList⟩) env).stdoutLines =
        listingLine :: (listRunningVms vmList ("\"" ++ vp ++ "\"") env).2.stdoutLines
          ++ runningHeaderLine ::
            (listRunningVms vmList ("\"" ++ vp ++ "\"") env).1.map statusLine)
    ∧ ((main ["suspend", "-"] (.parsed ⟨some vp, some vmList⟩) env).commands.count
        (suspendCmd ("\"" ++ vp ++ "\"") vm.path) = (jsLines out.stdout).count vm.path) := by
  have hres : (listRunningVms vmList ("\"" ++ vp ++ "\"") env).1 =
      (jsLines out.stdout).filterMap (fun p => vmList.find? (fun u => u.path == p)) := by
    simp [listRunningVms, henv, hns, matchLines_fst]
  have hcount : (listRunningVms vmList ("\"" ++ vp ++ "\"") env).1.count vm =
      (jsLines out.stdout).count vm.path := by
    rw [hres]
    exact count_filterMap_path vmList _ vm hfind
  have hnonempty : ((listRunningVms vmList ("\"" ++ vp ++ "\"") env).1.length == 0) = false := by
    have h1 : 1 ≤ (listRunningVms vmList ("\"" ++ vp ++ "\"") env).1.count vm := by
      rw [hcount]
      exact hpos
    have h2 := List.count_le_length vm (listRunningVms vmList ("\"" ++ vp ++ "\"") env).1
    simp only [beq_eq_false_iff_ne, ne_eq]
    omega
  refine ⟨hcount, ?_, ?_⟩
  · rw [main_status_to_switch vp vmList env hvp]
    simp [mainSwitch, jsFalsyStr_none, jsFalsyStr_some, hnonempty]
  · have hsus := main_two_args_to_switch "suspend" "-" vp vmList env (Or.inl rfl) hvp
    have hls : jsToLower "suspend" = "suspend" := rfl
    rw [hls] at hsus
    rw [hsus]
    have hall : ∀ v ∈ (listRunningVms vmList ("\"" ++ vp ++ "\"") env).1,
        vmList.find? (fun u => u.path == v.path) = some v := by
      intro v hvmem
      rw [hres] at hvmem
      exact find?_path_of_mem_filterMap vmList _ v hvmem
    have hcmd_eq : (mainSwitch "suspend" (some "-") vmList ("\"" ++ vp ++ "\"") env).commands =
        (("\"" ++ vp ++ "\"") ++ " list") ::
          (listRunningVms vmList ("\"" ++ vp ++ "\"") env).1.map
            (fun v => ((("\"" ++ vp ++ "\"") ++ " suspend \"") ++ v.path) ++ "\"") := by
      simp [mainSwitch, jsFalsyStr_none, jsFalsyStr_some, hnonempty, listRunningVms_commands, processVmsAction_commands,
        commandFor, suspendCmd]
    rw [hcmd_eq]
    simp only [suspendCmd, List.count_cons]
    have hne : (((("\"" ++ vp ++ "\"") ++ " suspend \"") ++ vm.path) ++ "\"" ==
        (("\"" ++ vp ++ "\"") ++ " list")) = false :=
      beq_eq_false_iff_ne.mpr (Ne.symm (list_ne_suspend ("\"" ++ vp ++ "\"") vm.path))
    rw [count_map_affix_cmd vmList _ vm (("\"" ++ vp ++ "\"") ++ " suspend \"") "\"" hall hfind]
    rw [hcount]
    simp [hne]
    exact list_ne_suspend ("\"" ++ vp ++ "\"") vm.path


/-- Witness for C10: a `list` output naming /vms/a.vmx twice yields Alpha
twice and two identical suspend commands. -/
theorem C10_witness :
    ((jsLines "Total running VMs: 2\n/vms/a.vmx\n/vms/a.vmx\n").count "/vms/a.vmx" = 2)
    ∧ ((listRunningVms [vmAlpha, vmBeta] "\"/bin/vmrun\""
        (envOkList "Total running VMs: 2\n/vms/a.vmx\n/vms/a.vmx\n")).1.count vmAlpha = 2)
    ∧ ((main ["suspend", "-"] (.parsed ⟨some "/bin/vmrun", some [vmAlpha, vmBeta]⟩)
        (envOkList "Total running VMs: 2\n/vms/a.vmx\n/vms/a.vmx\n")).commands.count
          (suspendCmd "\"/bin/vmrun\"" "/vms/a.vmx") = 2) := by
  have h := C10_no_dedup "/bin/vmrun" [vmAlpha, vmBeta] vmAlpha
    (envOkList "Total running VMs: 2\n/vms/a.vmx\n/vms/a.vmx\n")
    ⟨"Total running VMs: 2\n/vms/a.vmx\n/vms/a.vmx\n", ""⟩
    (by decide) rfl (by decide) (by decide) (by decide)
  exact ⟨by decide, h.1.trans (by decide), h.2.2.trans (by decide)⟩

end VMM
